import Mathlib

/-!
Shallow embedding of the request/response dispatch layer of the candig-client
library (src/candig/client/client.py): the response decoder with its
defederation pass, the two transport adapters (HTTP and local/in-process),
and the pagination loops.  Python strings are modelled as Lean `String`
(`len` is the character count), Python `json` values as the inductive `Json`
below (numbers restricted to integers, which covers every payload the
development evaluates), exceptions as `Except`, and the mutable client object
as an explicit `ClientState` threaded through the operations.
-/

/-- The left brace character, written via its code point. -/
def lbrace : Char := Char.ofNat 123

/-- The right brace character, written via its code point. -/
def rbrace : Char := Char.ofNat 125

/-- JSON values as produced by Python's `json.loads`: objects keep their
key/value pairs in textual order (lookups take the last occurrence, matching
dict insertion overwrite).  Numbers are modelled as integers. -/
inductive Json where
  | null : Json
  | bool : Bool → Json
  | num : Int → Json
  | str : String → Json
  | arr : List Json → Json
  | obj : List (String × Json) → Json

/-- Whitespace skipped between JSON tokens. -/
def skipWs : List Char → List Char
  | c :: cs => if c = ' ' ∨ c = '\n' ∨ c = '\t' ∨ c = '\r' then skipWs cs else c :: cs
  | [] => []

/-- Parse a run of decimal digits, returning the accumulated value. -/
def parseDigits : Nat → List Char → Option (Nat × List Char)
  | acc, c :: cs =>
    if c.isDigit then parseDigits (acc * 10 + (c.toNat - 48)) cs
    else some (acc, c :: cs)
  | acc, [] => some (acc, [])

/-- Whether the head of the input is a decimal digit. -/
def headIsDigit : List Char → Bool
  | c :: _ => c.isDigit
  | [] => false

/-- Parse the remainder of a JSON string literal after the opening quote,
handling the basic escape sequences. -/
def parseStringRest : List Char → List Char → Option (String × List Char)
  | acc, c :: cs =>
    if c = '"' then some (String.mk acc.reverse, cs)
    else if c = '\\' then
      match cs with
      | e :: cs' =>
        if e = '"' then parseStringRest ('"' :: acc) cs'
        else if e = '\\' then parseStringRest ('\\' :: acc) cs'
        else if e = '/' then parseStringRest ('/' :: acc) cs'
        else if e = 'n' then parseStringRest ('\n' :: acc) cs'
        else if e = 't' then parseStringRest ('\t' :: acc) cs'
        else if e = 'r' then parseStringRest ('\r' :: acc) cs'
        else none
      | [] => none
    else parseStringRest (c :: acc) cs
  | _, [] => none

mutual

/-- Fuel-indexed recursive-descent parser for one JSON value. -/
def parseVal : Nat → List Char → Option (Json × List Char)
  | 0, _ => none
  | Nat.succ f, s =>
    match skipWs s with
    | [] => none
    | c :: cs =>
      if c = lbrace then
        match skipWs cs with
        | d :: ds =>
          if d = rbrace then some (Json.obj [], ds)
          else parseObjItems f [] (d :: ds)
        | [] => none
      else if c = '[' then
        match skipWs cs with
        | d :: ds =>
          if d = ']' then some (Json.arr [], ds)
          else parseArrItems f [] (d :: ds)
        | [] => none
      else if c = '"' then
        match parseStringRest [] cs with
        | some (str, rest) => some (Json.str str, rest)
        | none => none
      else if c = '-' then
        if headIsDigit cs then
          match parseDigits 0 cs with
          | some (n, rest) => some (Json.num (-(n : Int)), rest)
          | none => none
        else none
      else if c.isDigit then
        match parseDigits (c.toNat - 48) cs with
        | some (n, rest) => some (Json.num (n : Int), rest)
        | none => none
      else if c = 't' then
        match cs with
        | 'r' :: 'u' :: 'e' :: rest => some (Json.bool true, rest)
        | _ => none
      else if c = 'f' then
        match cs with
        | 'a' :: 'l' :: 's' :: 'e' :: rest => some (Json.bool false, rest)
        | _ => none
      else if c = 'n' then
        match cs with
        | 'u' :: 'l' :: 'l' :: rest => some (Json.null, rest)
        | _ => none
      else none

/-- Parse the comma-separated items of a JSON array (after at least one item
is known to be present), accumulating in reverse. -/
def parseArrItems : Nat → List Json → List Char → Option (Json × List Char)
  | 0, _, _ => none
  | Nat.succ f, acc, s =>
    match parseVal f s with
    | none => none
    | some (v, rest) =>
      match skipWs rest with
      | c :: cs =>
        if c = ',' then parseArrItems f (v :: acc) cs
        else if c = ']' then some (Json.arr (v :: acc).reverse, cs)
        else none
      | [] => none

/-- Parse the comma-separated members of a JSON object (after at least one
member is known to be present), accumulating in reverse. -/
def parseObjItems : Nat → List (String × Json) → List Char → Option (Json × List Char)
  | 0, _, _ => none
  | Nat.succ f, acc, s =>
    match skipWs s with
    | c :: cs =>
      if c = '"' then
        match parseStringRest [] cs with
        | none => none
        | some (k, rest) =>
          match skipWs rest with
          | d :: ds =>
            if d = ':' then
              match parseVal f ds with
              | none => none
              | some (v, rest') =>
                match skipWs rest' with
                | e :: es =>
                  if e = ',' then parseObjItems f ((k, v) :: acc) es
                  else if e = rbrace then some (Json.obj ((k, v) :: acc).reverse, es)
                  else none
                | [] => none
            else none
          | [] => none
      else none
    | [] => none

end

/-- Model of Python's `json.loads`: parse the whole string as one JSON value,
failing (the `ValueError` branch) when parsing fails or trailing non-space
input remains. -/
def json_loads (s : String) : Option Json :=
  match parseVal (2 * s.length + 8) s.data with
  | some (v, rest) => if skipWs rest = [] then some v else none
  | none => none

/-- Escape one character for a JSON string literal, as `json.dumps` does. -/
def escapeChar (c : Char) : String :=
  if c = '"' then "\\\""
  else if c = '\\' then "\\\\"
  else if c = '\n' then "\\n"
  else if c = '\t' then "\\t"
  else if c = '\r' then "\\r"
  else String.mk [c]

/-- Serialize a string to a JSON string literal. -/
def dumpString (s : String) : String :=
  "\"" ++ String.join (s.data.map escapeChar) ++ "\""

mutual

/-- Model of Python's `json.dumps` with its default separators
(`", "` between items, `": "` after keys). -/
def json_dumps : Json → String
  | Json.null => "null"
  | Json.bool true => "true"
  | Json.bool false => "false"
  | Json.num n => toString n
  | Json.str s => dumpString s
  | Json.arr xs => "[" ++ String.intercalate ", " (dumpsList xs) ++ "]"
  | Json.obj kvs =>
      String.mk [lbrace] ++ String.intercalate ", " (dumpsMembers kvs) ++ String.mk [rbrace]

/-- Serialize the elements of a JSON array. -/
def dumpsList : List Json → List String
  | [] => []
  | x :: xs => json_dumps x :: dumpsList xs

/-- Serialize the members of a JSON object. -/
def dumpsMembers : List (String × Json) → List String
  | [] => []
  | (k, v) :: kvs => (dumpString k ++ ": " ++ json_dumps v) :: dumpsMembers kvs

end

/-- Errors a Python expression can raise inside `_defederate_response`:
`in` applied to a non-container raises `TypeError`, subscripting a
non-dict with a string raises `TypeError`, a missing key raises `KeyError`
(the latter is unreachable in the defederation flow). -/
inductive PyErr where
  | typeError : PyErr
  | keyError : PyErr
deriving DecidableEq

/-- Whether a JSON array element equals the Python string `key`
(Python `==` between a `str` and a non-`str` value is `False`). -/
def isStrElem (key : String) : Json → Bool
  | Json.str s => s = key
  | _ => false

/-- Whether `needle` occurs as a contiguous substring of `hay`
(Python `needle in hay` for strings). -/
def strContains (hay needle : String) : Bool :=
  decide (needle.data <:+: hay.data)

/-- Model of Python's `key in value` on a decoded JSON value: key membership
for dicts, element membership for lists, substring test for strings, and
`TypeError` for the non-container values. -/
def pyContains (key : String) : Json → Except PyErr Bool
  | Json.obj kvs => Except.ok (kvs.any (fun kv => kv.1 = key))
  | Json.arr xs => Except.ok (xs.any (isStrElem key))
  | Json.str s => Except.ok (strContains s key)
  | _ => Except.error PyErr.typeError

/-- Dict lookup on the decoded object's member list; the last occurrence of a
key wins, matching Python dict insertion overwrite in `json.loads`. -/
def jsonLookup (kvs : List (String × Json)) (key : String) : Option Json :=
  (kvs.reverse.find? (fun kv => kv.1 = key)).map (fun kv => kv.2)

/-- Model of Python's `value[key]` for a string key: dict lookup (raising
`KeyError` when absent), `TypeError` on every other JSON value. -/
def pySubscript (j : Json) (key : String) : Except PyErr Json :=
  match j with
  | Json.obj kvs =>
    match jsonLookup kvs key with
    | some v => Except.ok v
    | none => Except.error PyErr.keyError
  | _ => Except.error PyErr.typeError

/-- Embedding of `AbstractClient._defederate_response`: try `json.loads`; a
parse failure (`ValueError`) returns the text unchanged; otherwise test
`'status' in body and 'results' in body` (short-circuit) and, when both hold,
return `json.dumps(body['results'])`, else the text unchanged.  Uncaught
Python exceptions surface as `Except.error`. -/
def defederate_response (response_text : String) : Except PyErr String :=
  match json_loads response_text with
  | none => Except.ok response_text
  | some body =>
    match pyContains "status" body with
    | Except.error e => Except.error e
    | Except.ok hasStatus =>
      if hasStatus then
        match pyContains "results" body with
        | Except.error e => Except.error e
        | Except.ok hasResults =>
          if hasResults then
            match pySubscript body "results" with
            | Except.error e => Except.error e
            | Except.ok results => Except.ok (json_dumps results)
          else Except.ok response_text
      else Except.ok response_text

/-- Errors surfaced by the client layer: the empty-payload guard, the
transport-status failure carrying the HTTP status code, a decode failure
(unknown encoding or malformed payload), and a propagated Python
`TypeError` from the defederation pass. -/
inductive ClientError where
  | emptyResponse : ClientError
  | requestNonSuccess : Nat → ClientError
  | decodeError : ClientError
  | pyError : PyErr → ClientError
deriving DecidableEq

/-- Modelled from the spec: the supported wire encodings
(`protocol.MIMETYPES` lives in the external candig-schemas package; §3 of
the spec fixes exactly two encodings, the binary schema format
`application/protobuf` and JSON text `application/json`). -/
def MIMETYPES : List String := ["application/json", "application/protobuf"]

/-- The mutable client object, reduced to the state the dispatch layer
reads and writes: the configured serialization and the cumulative
received-byte counter. -/
structure ClientState where
  serialization : String
  protocol_bytes_received : Nat
deriving DecidableEq

/-- Embedding of `AbstractClient.__init__`: store the requested
serialization, then silently replace it by `application/protobuf` when it is
not a supported mimetype; the byte counter starts at zero. -/
def abstract_client_init (serialization : String) : ClientState :=
  { serialization := if serialization ∈ MIMETYPES then serialization else "application/protobuf",
    protocol_bytes_received := 0 }

/-- Embedding of `HttpClient.__init__`: run the superclass constructor, then
re-assign `self._serialization = serialization` with the raw argument
(line 1007), bypassing the superclass downgrade. -/
def http_client_init (serialization : String) : ClientState :=
  let st := abstract_client_init serialization
  { st with serialization := serialization }

/-- Embedding of `LocalClient.__init__`: run the superclass constructor,
re-assign the raw argument, then repeat the supported-mimetype downgrade. -/
def local_client_init (serialization : String) : ClientState :=
  let st := abstract_client_init serialization
  let s := serialization
  { st with serialization := if s ∈ MIMETYPES then s else "application/protobuf" }

/-- A decoded protocol object.  Modelled from the spec: the external
`protocol.deserialize` dispatches on the encoding to a JSON decoder or to
the opaque binary-schema decoder; the decoded result is represented by the
parsed JSON value in the first case and by the raw payload wrapped
injectively in the second. -/
inductive Decoded where
  | fromJson : Json → Decoded
  | fromProto : String → Decoded

/-- Modelled from the spec: `protocol.deserialize(payload, mimetype, cls)`
decodes JSON text via the JSON parser (failing on malformed text), decodes
the binary schema format opaquely, and fails on any other encoding. -/
def protocol_deserialize (payload : String) (content_type : String) :
    Except ClientError Decoded :=
  if content_type = "application/json" then
    match json_loads payload with
    | some j => Except.ok (Decoded.fromJson j)
    | none => Except.error ClientError.decodeError
  else if content_type = "application/protobuf" then
    Except.ok (Decoded.fromProto payload)
  else
    Except.error ClientError.decodeError

/-- Embedding of `AbstractClient._deserialize_response`: add the raw
payload's length to the byte counter first, defederate, raise
`EmptyResponseException` when the defederated payload is empty and the
content type is `application/json`, else hand off to
`protocol.deserialize`.  Returns the updated client state together with the
outcome. -/
def deserialize_response (st : ClientState) (response_string : String)
    (content_type : String) : ClientState × Except ClientError Decoded :=
  let st' := { st with
    protocol_bytes_received := st.protocol_bytes_received + response_string.length }
  match defederate_response response_string with
  | Except.error e => (st', Except.error (ClientError.pyError e))
  | Except.ok defed =>
    if defed = "" ∧ content_type = "application/json" then
      (st', Except.error ClientError.emptyResponse)
    else
      (st', protocol_deserialize defed content_type)

/-- Embedding of `AbstractClient.get_protocol_bytes_received`. -/
def get_protocol_bytes_received (st : ClientState) : Nat :=
  st.protocol_bytes_received

/-- Model of `posixpath.join` on two components, as used to build request
URLs. -/
def posixJoin (a b : String) : String :=
  if b.startsWith "/" then b
  else if a = "" then b
  else if a.endsWith "/" then a ++ b
  else a ++ "/" ++ b

/-- An HTTP response as seen through the requests session: status code,
body text, and the optional `Content-Type` header. -/
structure HttpResponse where
  status_code : Nat
  text : String
  content_type : Option String

/-- Embedding of `HttpClient._check_response_status`: raise
`RequestNonSuccessException` whenever the status code differs from
`requests.codes.ok`, which is exactly 200. -/
def check_response_status (response : HttpResponse) : Except ClientError Unit :=
  if response.status_code ≠ 200 then
    Except.error (ClientError.requestNonSuccess response.status_code)
  else
    Except.ok ()

/-- Embedding of `HttpClient._get_response_mimetype`: the response's
`Content-Type` header when present, else the client's configured
serialization. -/
def get_response_mimetype (serialization : String) (response : HttpResponse) : String :=
  match response.content_type with
  | some ct => ct
  | none => serialization

/-- The pagination-relevant shape of a search protocol request: the opaque
continuation token, the page-size hint, and the remaining filter fields
collapsed into one opaque component. -/
structure SearchRequest where
  page_size : Nat
  page_token : String
  body : String
deriving DecidableEq

/-- Modelled from the spec: the external `protocol.toJson` renders a search
request as JSON text; an injective canonical rendering suffices for the
dispatch layer, which only threads the serialized form. -/
def searchToJson (r : SearchRequest) : String :=
  json_dumps (Json.obj
    [("pageSize", Json.num (r.page_size : Int)),
     ("pageToken", Json.str r.page_token),
     ("body", Json.str r.body)])

/-- Embedding of `HttpClient._run_search_page_request`: POST the
JSON-serialized request to `urlPrefix/objectName/search` through the
session (modelled as the function `net` from URL and body to response),
check the status, then deserialize the body under the mimetype negotiated
from the response. -/
def http_run_search_page_request (net : String → String → HttpResponse)
    (url_base : String) (st : ClientState) (protocol_request : SearchRequest)
    (object_name : String) : ClientState × Except ClientError Decoded :=
  let url := posixJoin url_base (object_name ++ "/search")
  let data := searchToJson protocol_request
  let response := net url data
  match check_response_status response with
  | Except.error e => (st, Except.error e)
  | Except.ok _ =>
    deserialize_response st response.text (get_response_mimetype st.serialization response)

/-- Embedding of `LocalClient._run_search_page_request`: call the backend's
search method (modelled as the function from serialized request and
encoding to payload) and deserialize its returned payload under the
client's configured serialization. -/
def local_run_search_page_request (search_method : String → String → String)
    (st : ClientState) (protocol_request : SearchRequest) :
    ClientState × Except ClientError Decoded :=
  let response_string := search_method (searchToJson protocol_request) st.serialization
  deserialize_response st response_string st.serialization

/-- Embedding of `HttpClient._run_http_post_request`: POST the given
serialized body to `urlPrefix/path`, check the status, then deserialize. -/
def run_http_post_request (net : String → String → HttpResponse)
    (url_base : String) (st : ClientState) (data : String) (path : String) :
    ClientState × Except ClientError Decoded :=
  let url := posixJoin url_base path
  let response := net url data
  match check_response_status response with
  | Except.error e => (st, Except.error e)
  | Except.ok _ =>
    deserialize_response st response.text (get_response_mimetype st.serialization response)

/-- A decoded search response as the pagination engine sees it: the named
value list (`getattr(response, getValueListName(cls))`) and the
continuation token. -/
structure SearchResponse (α : Type) where
  values : List α
  next_page_token : String

/-- Embedding of the loop of `AbstractClient._run_search_request` under full
consumption of the generator: each round trip (one call of `page`, the
transport-dispatched `_run_search_page_request`) yields the page's value
list; the loop continues while `bool(next_page_token)` holds, copying the
token into the request's `page_token`.  Returns the yielded elements in
order together with the number of round trips; `none` when the fuel bound
is hit (the source imposes no bound and may loop forever). -/
def run_search_request {α : Type} (page : SearchRequest → SearchResponse α) :
    Nat → SearchRequest → Option (List α × Nat)
  | 0, _ => none
  | Nat.succ fuel, protocol_request =>
    let response_object := page protocol_request
    if response_object.next_page_token = "" then
      some (response_object.values, 1)
    else
      match run_search_request page fuel
          { protocol_request with page_token := response_object.next_page_token } with
      | none => none
      | some (rest, trips) => some (response_object.values ++ rest, trips + 1)

/-- The pagination-relevant shape of `ListReferenceBasesRequest` (the
Python `end` field is rendered `end_`). -/
structure ListReferenceBasesRequest where
  start : Int
  end_ : Int
  reference_id : String
  page_token : String
deriving DecidableEq

/-- A decoded `ListReferenceBasesResponse`: one sequence fragment and the
continuation token. -/
structure ListReferenceBasesResponse where
  sequence : String
  next_page_token : String
deriving DecidableEq

/-- The accumulation loop of `AbstractClient.list_reference_bases`: every
round trip appends `response.sequence` to `bases_list`, then the loop
continues while `bool(next_page_token)` holds, copying the token into the
request.  Returns the fragment list in arrival order and the round-trip
count; `none` when the fuel bound is hit. -/
def list_reference_bases_loop
    (page : ListReferenceBasesRequest → ListReferenceBasesResponse) :
    Nat → ListReferenceBasesRequest → Option (List String × Nat)
  | 0, _ => none
  | Nat.succ fuel, request =>
    let response := page request
    if response.next_page_token = "" then
      some ([response.sequence], 1)
    else
      match list_reference_bases_loop page fuel
          { request with page_token := response.next_page_token } with
      | none => none
      | some (rest, trips) => some (response.sequence :: rest, trips + 1)

/-- Embedding of `AbstractClient.list_reference_bases`: build the request
with an empty initial token, run the accumulation loop, and join the
collected fragments with `"".join`. -/
def list_reference_bases
    (page : ListReferenceBasesRequest → ListReferenceBasesResponse)
    (fuel : Nat) (id_ : String) (start : Int) (end_ : Int) :
    Option (String × Nat) :=
  let request : ListReferenceBasesRequest :=
    { start := start, end_ := end_, reference_id := id_, page_token := "" }
  match list_reference_bases_loop page fuel request with
  | none => none
  | some (bases_list, trips) => some (String.join bases_list, trips)

/-- The pagination-relevant shape of `SearchGenotypesRequest`. -/
structure SearchGenotypesRequest where
  variant_set_id : String
  reference_name : String
  start : Int
  end_ : Int
  call_set_ids : List String
  page_token : String
deriving DecidableEq

/-- A decoded `SearchGenotypesResponse`: the genotype matrix, the variants,
the call-set ids, and the continuation token. -/
structure SearchGenotypesResponse (α β : Type) where
  genotypes : List α
  variants : List β
  call_set_ids : List String
  next_page_token : String

/-- The paging loop inside `AbstractClient.search_genotypes`: collect every
page response object into `resps`, continuing while `bool(next_page_token)`
holds.  Returns the collected responses in arrival order and the round-trip
count; `none` when the fuel bound is hit. -/
def search_genotypes_loop {α β : Type}
    (page : SearchGenotypesRequest → SearchGenotypesResponse α β) :
    Nat → SearchGenotypesRequest →
    Option (List (SearchGenotypesResponse α β) × Nat)
  | 0, _ => none
  | Nat.succ fuel, request =>
    let response_object := page request
    if response_object.next_page_token = "" then
      some ([response_object], 1)
    else
      match search_genotypes_loop page fuel
          { request with page_token := response_object.next_page_token } with
      | none => none
      | some (rest, trips) => some (response_object :: rest, trips + 1)

/-- Embedding of `AbstractClient.search_genotypes`: run the paging loop from
an empty initial token, then return `resps[0].genotypes, resps[0].variants,
resps[0].call_set_ids` — the first collected page only. -/
def search_genotypes {α β : Type}
    (page : SearchGenotypesRequest → SearchGenotypesResponse α β)
    (fuel : Nat) (variant_set_id : String) (reference_name : String)
    (start : Int) (end_ : Int) (call_set_ids : List String) :
    Option ((List α × List β × List String) × Nat) :=
  let request : SearchGenotypesRequest :=
    { variant_set_id := variant_set_id, reference_name := reference_name,
      start := start, end_ := end_, call_set_ids := call_set_ids,
      page_token := "" }
  match search_genotypes_loop page fuel request with
  | none => none
  | some (resps, trips) =>
    match resps with
    | [] => none
    | r :: _ => some ((r.genotypes, r.variants, r.call_set_ids), trips)

/-- Applying a sequence of deserialization calls (payload, content type) to a
client state, as the client does over its lifetime. -/
def apply_deserializations (st : ClientState) (events : List (String × String)) :
    ClientState :=
  events.foldl (fun s e => (deserialize_response s e.1 e.2).1) st

lemma deserialize_response_fst (st : ClientState) (p ct : String) :
    (deserialize_response st p ct).1 =
      { st with protocol_bytes_received := st.protocol_bytes_received + p.length } := by
  unfold deserialize_response
  cases defederate_response p with
  | error e => rfl
  | ok defed => simp only; split <;> rfl

lemma deserialize_response_snd_indep (st₁ st₂ : ClientState) (p ct : String) :
    (deserialize_response st₁ p ct).2 = (deserialize_response st₂ p ct).2 := by
  unfold deserialize_response
  cases defederate_response p with
  | error e => rfl
  | ok defed => simp only; split <;> rfl

lemma protocol_deserialize_ne_empty (p ct : String) :
    protocol_deserialize p ct ≠ Except.error ClientError.emptyResponse := by
  unfold protocol_deserialize
  split
  · cases json_loads p <;> simp
  · split <;> simp

lemma deserialize_response_bytes (st : ClientState) (p ct : String) :
    ((deserialize_response st p ct).1).protocol_bytes_received =
      st.protocol_bytes_received + p.length := by
  rw [deserialize_response_fst]

/-- C8: the cumulative received-byte counter is monotonically non-decreasing
over any sequence of deserialization calls in the client's lifetime, every
deserialization adds the raw payload's length (measured before
defederation), and `get_protocol_bytes_received` returns the current
counter value. -/
theorem protocol_bytes_received_monotone (st : ClientState)
    (events : List (String × String)) (p ct : String) :
    get_protocol_bytes_received st ≤
      get_protocol_bytes_received (apply_deserializations st events) ∧
    get_protocol_bytes_received ((deserialize_response st p ct).1) =
      get_protocol_bytes_received st + p.length ∧
    get_protocol_bytes_received st = st.protocol_bytes_received := by
  refine ⟨?_, deserialize_response_bytes st p ct, rfl⟩
  induction events generalizing st with
  | nil => exact le_refl _
  | cons e rest ih =>
    refine le_trans ?_ (ih ((deserialize_response st e.1 e.2).1))
    unfold get_protocol_bytes_received
    rw [deserialize_response_bytes]
    exact Nat.le_add_right _ _

lemma string_length_pos_of_ne_empty (p : String) (hp : p ≠ "") : 0 < p.length := by
  cases p with
  | mk data =>
    cases data with
    | nil => exact absurd rfl hp
    | cons c cs => simp [String.length]

/-- C10 counterexample: an attempt that raises `EmptyResponse` does not
increase the byte counter — `EmptyResponse` only arises for a zero-length
payload, whose recorded length is zero, so the client state is left with
the same counter value. -/
theorem empty_response_counter_counterexample :
    (deserialize_response (abstract_client_init "application/json") ""
        "application/json").2 = Except.error ClientError.emptyResponse ∧
    get_protocol_bytes_received
        ((deserialize_response (abstract_client_init "application/json") ""
          "application/json").1) =
      get_protocol_bytes_received (abstract_client_init "application/json") := by
  exact ⟨rfl, rfl⟩

/-- C10 (amended): the byte counter is incremented by the raw payload's
length at the start of every deserialization attempt, before defederation
and before any decode; hence a failing attempt with a nonempty payload
strictly increases the counter (witnessed below for a decode failure), but
an `EmptyResponse` attempt — possible only for an empty payload — adds
zero. -/
theorem deserialize_counter_increment (st : ClientState) (p ct : String) :
    get_protocol_bytes_received ((deserialize_response st p ct).1) =
      get_protocol_bytes_received st + p.length ∧
    (p ≠ "" →
      get_protocol_bytes_received st <
        get_protocol_bytes_received ((deserialize_response st p ct).1)) ∧
    (deserialize_response st "xyzw" "application/json").2 =
      Except.error ClientError.decodeError ∧
    get_protocol_bytes_received ((deserialize_response st "xyzw"
        "application/json").1) = get_protocol_bytes_received st + 4 := by
  refine ⟨deserialize_response_bytes st p ct, ?_, ?_, ?_⟩
  · intro hp
    unfold get_protocol_bytes_received
    rw [deserialize_response_bytes]
    exact Nat.lt_add_of_pos_right (string_length_pos_of_ne_empty p hp)
  · rw [deserialize_response_snd_indep st (abstract_client_init "") "xyzw" "application/json"]
    rfl
  · unfold get_protocol_bytes_received
    rw [deserialize_response_bytes]
    rfl

/-- C10 witness: at a concrete nonempty payload the strict-increase part of
the amended statement applies. -/
theorem deserialize_counter_increment_witness :
    "xyzw" ≠ "" ∧
    get_protocol_bytes_received (abstract_client_init "application/json") <
      get_protocol_bytes_received
        ((deserialize_response (abstract_client_init "application/json") "xyzw"
          "application/json").1) := by
  exact ⟨by decide,
    (deserialize_counter_increment (abstract_client_init "application/json")
      "xyzw" "application/json").2.1 (by decide)⟩

/-- C7 counterexample: constructing the HTTP (Remote) client with the
unsupported serialization string `bogus` leaves the client's effective
serialization at `bogus` — the re-assignment after the superclass
constructor bypasses the downgrade to `application/protobuf`. -/
theorem http_client_serialization_counterexample :
    ¬ ("bogus" ∈ MIMETYPES) ∧
    (http_client_init "bogus").serialization = "bogus" ∧
    (http_client_init "bogus").serialization ≠ "application/protobuf" := by
  exact ⟨by decide, rfl, by decide⟩

/-- C7 (amended): construction always succeeds, and an unsupported
serialization string is silently downgraded to `application/protobuf` by
the abstract constructor and by the Local client — but the Remote
(HTTP) client re-assigns the raw argument after the superclass constructor
runs, so its effective serialization keeps the unsupported value. -/
theorem serialization_downgrade (s : String) (hs : s ∉ MIMETYPES) :
    (abstract_client_init s).serialization = "application/protobuf" ∧
    (local_client_init s).serialization = "application/protobuf" ∧
    (http_client_init s).serialization = s := by
  refine ⟨?_, ?_, rfl⟩
  · unfold abstract_client_init
    simp [hs]
  · unfold local_client_init abstract_client_init
    simp [hs]

/-- C7 witness: the amended statement applied at the unsupported
serialization string `bogus`. -/
theorem serialization_downgrade_witness :
    "bogus" ∉ MIMETYPES ∧
    ((abstract_client_init "bogus").serialization = "application/protobuf" ∧
     (local_client_init "bogus").serialization = "application/protobuf" ∧
     (http_client_init "bogus").serialization = "bogus") := by
  exact ⟨by decide, serialization_downgrade "bogus" (by decide)⟩

/-- The three-page server of the accumulation scenario: fragments `ACGT`,
`TTT`, `""` under continuation tokens `p1`, `p2`, `""`. -/
def c5Server (req : ListReferenceBasesRequest) : ListReferenceBasesResponse :=
  if req.page_token = "" then { sequence := "ACGT", next_page_token := "p1" }
  else if req.page_token = "p1" then { sequence := "TTT", next_page_token := "p2" }
  else { sequence := "", next_page_token := "" }

/-- C5 counterexample: against the three-page server the accumulation loop
performs three round trips, not the two the claim states — every page,
including the final empty one, costs one call of the page request. -/
theorem list_reference_bases_two_trips_counterexample :
    list_reference_bases c5Server 30 "ref-1" 0 7 = some ("ACGTTTT", 3) ∧
    list_reference_bases c5Server 30 "ref-1" 0 7 ≠ some ("ACGTTTT", 2) := by
  exact ⟨rfl, by decide⟩

/-- C5 (amended): for the three-page scenario with fragments `ACGT`, `TTT`,
`""` and tokens `p1`, `p2`, `""`, the accumulation loop performs exactly
three round trips and returns the concatenated result `ACGTTTT`. -/
theorem list_reference_bases_accumulation :
    list_reference_bases c5Server 30 "ref-1" 0 7 = some ("ACGTTTT", 3) := by
  rfl

/-- A network returning status 201 with a decodable JSON body, for the C6
counterexample. -/
def c6Net : String → String → HttpResponse :=
  fun _ _ => { status_code := 201, text := "[1]", content_type := some "application/json" }

/-- C6 counterexample: a 201 response — a 2xx success — is rejected by the
status check, which compares against `requests.codes.ok` (exactly 200):
the call raises `RequestNonSuccessException` carrying 201 and the body is
never decoded (the client state, byte counter included, is unchanged). -/
theorem http_2xx_counterexample :
    (200 ≤ 201 ∧ 201 < 300) ∧
    run_http_post_request c6Net "http://srv" (abstract_client_init "application/json")
        "[]" "announce" =
      (abstract_client_init "application/json",
        Except.error (ClientError.requestNonSuccess 201)) := by
  exact ⟨by decide, rfl⟩

/-- C6 (amended): for every Remote POST request, a response with status
exactly 200 is decoded through `_deserialize_response` under the negotiated
mimetype, and a response with any other status — including the other 2xx
codes — raises `RequestNonSuccessException` carrying that status, leaving
the client state untouched (the body is never decoded). -/
theorem http_post_status_check (net : String → String → HttpResponse)
    (url_base : String) (st : ClientState) (data path : String)
    (response : HttpResponse)
    (hnet : net (posixJoin url_base path) data = response) :
    (response.status_code = 200 →
      run_http_post_request net url_base st data path =
        deserialize_response st response.text
          (get_response_mimetype st.serialization response)) ∧
    (response.status_code ≠ 200 →
      run_http_post_request net url_base st data path =
        (st, Except.error (ClientError.requestNonSuccess response.status_code))) := by
  constructor
  · intro h200
    simp only [run_http_post_request]
    rw [hnet]
    unfold check_response_status
    simp [h200]
  · intro hne
    simp only [run_http_post_request]
    rw [hnet]
    unfold check_response_status
    simp [hne]

/-- C6 witness: the amended statement applied to a concrete network whose
response carries status 404. -/
theorem http_post_status_check_witness :
    (fun (_ _ : String) =>
        ({ status_code := 404, text := "gone", content_type := none } : HttpResponse))
          (posixJoin "http://srv" "announce") "[]" =
      ({ status_code := 404, text := "gone", content_type := none } : HttpResponse) ∧
    (404 : Nat) ≠ 200 ∧
    run_http_post_request
        (fun (_ _ : String) =>
          ({ status_code := 404, text := "gone", content_type := none } : HttpResponse))
        "http://srv" (abstract_client_init "application/json") "[]" "announce" =
      (abstract_client_init "application/json",
        Except.error (ClientError.requestNonSuccess 404)) := by
  refine ⟨rfl, by decide, ?_⟩
  exact (http_post_status_check
      (fun (_ _ : String) =>
        ({ status_code := 404, text := "gone", content_type := none } : HttpResponse))
      "http://srv" (abstract_client_init "application/json") "[]" "announce"
      { status_code := 404, text := "gone", content_type := none } rfl).2 (by decide)

/-- C4: deserialization raises `EmptyResponse` exactly when the
post-defederation payload is empty and the target encoding is
`application/json`; in particular an empty payload under a non-JSON target
encoding never raises `EmptyResponse`. -/
theorem deserialize_empty_response_iff (st : ClientState) (p ct : String) :
    ((deserialize_response st p ct).2 = Except.error ClientError.emptyResponse ↔
      defederate_response p = Except.ok "" ∧ ct = "application/json") ∧
    (ct ≠ "application/json" →
      (deserialize_response st "" ct).2 ≠ Except.error ClientError.emptyResponse) := by
  constructor
  · unfold deserialize_response
    cases h : defederate_response p with
    | error e => simp
    | ok defed =>
      simp only []
      split
      · rename_i hguard
        simp [hguard.1, hguard.2]
      · rename_i hguard
        have hne := protocol_deserialize_ne_empty defed ct
        simp only [ne_eq] at hne
        simp [hne]
        intro hdef hct
        exact hguard ⟨hdef, hct⟩
  · intro hct
    unfold deserialize_response
    have h0 : defederate_response "" = Except.ok "" := rfl
    rw [h0]
    simp only []
    split
    · rename_i hguard
      exact absurd hguard.2 hct
    · exact protocol_deserialize_ne_empty "" ct

/-- C4 witness: an empty payload under the binary target encoding does not
raise `EmptyResponse`. -/
theorem deserialize_empty_response_iff_witness :
    "application/protobuf" ≠ "application/json" ∧
    (deserialize_response (abstract_client_init "application/protobuf") ""
        "application/protobuf").2 ≠ Except.error ClientError.emptyResponse := by
  exact ⟨by decide,
    (deserialize_empty_response_iff (abstract_client_init "application/protobuf")
      "" "application/protobuf").2 (by decide)⟩

/-- C2: under full consumption of the search generator, a first response
with an empty `nextPageToken` yields exactly that page's elements in one
round trip; a response pair with tokens `tok1` then `""` takes exactly two
round trips, yields page-1 elements followed by page-2 elements in order,
and threads the returned token unchanged into the request's `page_token`
(the second round trip is issued for the request updated with `tok1`). -/
theorem run_search_request_pagination {α : Type}
    (page : SearchRequest → SearchResponse α) (fuel : Nat) (req : SearchRequest) :
    ((page req).next_page_token = "" →
      run_search_request page (fuel + 1) req = some ((page req).values, 1)) ∧
    ((page req).next_page_token = "tok1" →
      (page { req with page_token := "tok1" }).next_page_token = "" →
      run_search_request page (fuel + 2) req =
        some ((page req).values ++ (page { req with page_token := "tok1" }).values, 2)) := by
  constructor
  · intro h
    simp [run_search_request, h]
  · intro h1 h2
    have hstep : run_search_request page (fuel + 2) req =
        match run_search_request page (fuel + 1)
            { req with page_token := (page req).next_page_token } with
        | none => none
        | some (rest, trips) => some ((page req).values ++ rest, trips + 1) := by
      simp [run_search_request, h1]
    rw [hstep, h1]
    simp [run_search_request, h2]

/-- The two-page search server of the C2 witness: page one carries elements
`[10, 20]` under token `tok1`, page two carries `[30]` and ends. -/
def c2Server (req : SearchRequest) : SearchResponse Nat :=
  if req.page_token = "tok1" then { values := [30], next_page_token := "" }
  else { values := [10, 20], next_page_token := "tok1" }

/-- C2 witness: the pagination statement applied to the two-page server at
a concrete initial request. -/
theorem run_search_request_pagination_witness :
    (c2Server { page_size := 0, page_token := "", body := "q" }).next_page_token = "tok1" ∧
    (c2Server { page_size := 0, page_token := "tok1", body := "q" }).next_page_token = "" ∧
    run_search_request c2Server 2 { page_size := 0, page_token := "", body := "q" } =
      some ([10, 20, 30], 2) ∧
    run_search_request c2Server 1 { page_size := 0, page_token := "tok1", body := "q" } =
      some ([30], 1) := by
  refine ⟨rfl, rfl, ?_, ?_⟩
  · exact (run_search_request_pagination c2Server 0
      { page_size := 0, page_token := "", body := "q" }).2 rfl rfl
  · exact (run_search_request_pagination c2Server 0
      { page_size := 0, page_token := "tok1", body := "q" }).1 rfl

lemma search_genotypes_loop_head {α β : Type}
    (page : SearchGenotypesRequest → SearchGenotypesResponse α β)
    (fuel : Nat) (req : SearchGenotypesRequest)
    (resps : List (SearchGenotypesResponse α β)) (trips : Nat)
    (h : search_genotypes_loop page fuel req = some (resps, trips)) :
    ∃ rest, resps = page req :: rest := by
  cases fuel with
  | zero => exact absurd h (by simp [search_genotypes_loop])
  | succ f =>
    simp only [search_genotypes_loop] at h
    split at h
    · simp only [Option.some.injEq, Prod.mk.injEq] at h
      exact ⟨[], h.1.symm⟩
    · split at h
      · exact absurd h (by simp)
      · simp only [Option.some.injEq, Prod.mk.injEq] at h
        exact ⟨_, h.1.symm⟩

lemma search_genotypes_first_page_aux {α β : Type}
    (page : SearchGenotypesRequest → SearchGenotypesResponse α β)
    (fuel : Nat) (vsid rname : String) (start end_ : Int)
    (csids : List String) (req0 : SearchGenotypesRequest)
    (hreq : req0 = { variant_set_id := vsid, reference_name := rname,
                     start := start, end_ := end_, call_set_ids := csids,
                     page_token := "" })
    (resps : List (SearchGenotypesResponse α β)) (trips : Nat)
    (h : search_genotypes_loop page fuel req0 = some (resps, trips)) :
    search_genotypes page fuel vsid rname start end_ csids =
      some (((page req0).genotypes, (page req0).variants,
        (page req0).call_set_ids), trips) := by
  obtain ⟨rest, hr⟩ := search_genotypes_loop_head page fuel req0 resps trips h
  simp only [search_genotypes]
  rw [← hreq, h, hr]

/-- C9: `search_genotypes` fetches every page — one round trip per
non-empty continuation token, threading the token into the request — but
the returned triple (genotypes, variants, call-set ids) is taken from the
first collected page response only; subsequent pages are fetched and then
discarded.  Stated for every completed run of the paging loop and for the
explicit two-page shape with second-page content arbitrary. -/
theorem search_genotypes_first_page_only {α β : Type}
    (page : SearchGenotypesRequest → SearchGenotypesResponse α β)
    (fuel : Nat) (vsid rname : String) (start end_ : Int)
    (csids : List String) (req0 : SearchGenotypesRequest) (tok : String)
    (hreq : req0 = { variant_set_id := vsid, reference_name := rname,
                     start := start, end_ := end_, call_set_ids := csids,
                     page_token := "" }) :
    (∀ resps trips,
      search_genotypes_loop page fuel req0 = some (resps, trips) →
      search_genotypes page fuel vsid rname start end_ csids =
        some (((page req0).genotypes, (page req0).variants,
          (page req0).call_set_ids), trips)) ∧
    ((page req0).next_page_token = tok → tok ≠ "" →
      (page { req0 with page_token := tok }).next_page_token = "" →
      search_genotypes page (fuel + 2) vsid rname start end_ csids =
        some (((page req0).genotypes, (page req0).variants,
          (page req0).call_set_ids), 2)) := by
  constructor
  · intro resps trips h
    exact search_genotypes_first_page_aux page fuel vsid rname start end_
      csids req0 hreq resps trips h
  · intro h1 hne h2
    have hloop : search_genotypes_loop page (fuel + 2) req0 =
        some ([page req0, page { req0 with page_token := tok }], 2) := by
      simp [search_genotypes_loop, h1, hne, h2]
    exact search_genotypes_first_page_aux page (fuel + 2) vsid rname start end_
      csids req0 hreq _ _ hloop

/-- The two-page genotype server of the C9 witness: page one carries the
triple `([1, 2], [3], [a, b])` under token `g1`; page two carries different
data and ends. -/
def c9Server : SearchGenotypesRequest → SearchGenotypesResponse Nat Nat :=
  fun req =>
    if req.page_token = "g1" then
      { genotypes := [99], variants := [98], call_set_ids := ["x"],
        next_page_token := "" }
    else
      { genotypes := [1, 2], variants := [3], call_set_ids := ["a", "b"],
        next_page_token := "g1" }

/-- C9 witness: against the two-page server the call performs two round
trips and returns page one's triple, discarding page two's data. -/
theorem search_genotypes_first_page_only_witness :
    (c9Server { variant_set_id := "vs", reference_name := "r", start := 0,
                end_ := 5, call_set_ids := [], page_token := "" }).next_page_token = "g1" ∧
    ("g1" : String) ≠ "" ∧
    (c9Server { variant_set_id := "vs", reference_name := "r", start := 0,
                end_ := 5, call_set_ids := [], page_token := "g1" }).next_page_token = "" ∧
    search_genotypes c9Server 2 "vs" "r" 0 5 [] =
      some (([1, 2], [3], ["a", "b"]), 2) := by
  refine ⟨rfl, by decide, rfl, ?_⟩
  exact (search_genotypes_first_page_only c9Server 0 "vs" "r" 0 5 [] _ "g1"
    rfl).2 rfl (by decide) rfl

/-- C1: substitutability of the Remote and Local transport adapters — when
the HTTP call succeeds with the same raw payload the local backend returns,
and the negotiated mimetype agrees with the local client's configured
serialization, the two `_run_search_page_request` implementations produce
identical decoded results for the same search request (both serialize the
request with the same `toJson` and route the payload through the same
`_deserialize_response`). -/
theorem remote_local_substitutability
    (net : String → String → HttpResponse)
    (search_method : String → String → String)
    (url_base object_name : String) (st_r st_l : ClientState)
    (req : SearchRequest) (response : HttpResponse)
    (hnet : net (posixJoin url_base (object_name ++ "/search"))
        (searchToJson req) = response)
    (hok : response.status_code = 200)
    (hmime : get_response_mimetype st_r.serialization response = st_l.serialization)
    (hback : search_method (searchToJson req) st_l.serialization = response.text) :
    (http_run_search_page_request net url_base st_r req object_name).2 =
      (local_run_search_page_request search_method st_l req).2 := by
  simp only [http_run_search_page_request, local_run_search_page_request]
  rw [hnet, hback, hmime]
  unfold check_response_status
  simp only [hok, ne_eq, not_true_eq_false, if_false, ite_false]
  exact deserialize_response_snd_indep st_r st_l response.text st_l.serialization

/-- The fixed 200-status JSON response of the C1 witness. -/
def c1Response : HttpResponse :=
  { status_code := 200, text := "[7]", content_type := some "application/json" }

/-- C1 witness: a concrete network and backend that agree on the payload
`[7]` produce the same decoded result on both transports. -/
theorem remote_local_substitutability_witness :
    (fun (_ _ : String) => c1Response)
        (posixJoin "http://srv" ("variants" ++ "/search"))
        (searchToJson { page_size := 0, page_token := "", body := "q" }) = c1Response ∧
    c1Response.status_code = 200 ∧
    get_response_mimetype (abstract_client_init "application/json").serialization
        c1Response = (abstract_client_init "application/json").serialization ∧
    (fun (_ _ : String) => "[7]")
        (searchToJson { page_size := 0, page_token := "", body := "q" })
        (abstract_client_init "application/json").serialization = c1Response.text ∧
    (http_run_search_page_request (fun (_ _ : String) => c1Response) "http://srv"
        (abstract_client_init "application/json")
        { page_size := 0, page_token := "", body := "q" } "variants").2 =
      (local_run_search_page_request (fun (_ _ : String) => "[7]")
        (abstract_client_init "application/json")
        { page_size := 0, page_token := "", body := "q" }).2 := by
  refine ⟨rfl, rfl, rfl, rfl, ?_⟩
  exact remote_local_substitutability (fun (_ _ : String) => c1Response)
    (fun (_ _ : String) => "[7]") "http://srv" "variants"
    (abstract_client_init "application/json") (abstract_client_init "application/json")
    { page_size := 0, page_token := "", body := "q" } c1Response rfl rfl rfl rfl

/-- C3 counterexample: the payload `5` parses as JSON and does not match the
envelope shape, yet the defederation pass does not leave it unchanged — the
membership test `in` on an integer raises an uncaught `TypeError`.  Also,
after stripping an envelope the code keeps the original target encoding
rather than forcing JSON: under `application/protobuf` the stripped
`results` text is handed to the binary decoder. -/
theorem defederate_nonenvelope_counterexample :
    json_loads "5" = some (Json.num 5) ∧
    defederate_response "5" = Except.error PyErr.typeError ∧
    defederate_response "5" ≠ Except.ok "5" ∧
    (deserialize_response (abstract_client_init "application/protobuf")
        "\x7b\"status\": \"ok\", \"results\": [1, 2, 3]\x7d"
        "application/protobuf").2 =
      Except.ok (Decoded.fromProto "[1, 2, 3]") := by
  refine ⟨rfl, rfl, ?_, rfl⟩
  intro h
  rw [show defederate_response "5" = Except.error PyErr.typeError from rfl] at h
  exact Except.noConfusion h

/-- C3 (amended): a payload that fails to parse as JSON is left unchanged;
a payload that parses and whose `status` membership test answers `False`,
or answers `True` while the `results` test answers `False`, is left
unchanged (membership is key lookup for objects, element equality for
arrays, substring test for strings, and raises `TypeError` for numbers,
booleans and null); a payload parsing to an object carrying both keys is
replaced by the serialized `results` field, decoding then proceeding under
the original target encoding — in particular, under the JSON encoding the
envelope around `[1,2,3]` decodes identically to `[1,2,3]` decoded
directly. -/
theorem defederate_response_amended (s : String) (st₁ st₂ : ClientState) :
    (json_loads s = none → defederate_response s = Except.ok s) ∧
    (∀ j, json_loads s = some j → pyContains "status" j = Except.ok false →
      defederate_response s = Except.ok s) ∧
    (∀ j, json_loads s = some j → pyContains "status" j = Except.ok true →
      pyContains "results" j = Except.ok false →
      defederate_response s = Except.ok s) ∧
    (∀ kvs r, json_loads s = some (Json.obj kvs) →
      kvs.any (fun kv => kv.1 = "status") = true →
      jsonLookup kvs "results" = some r →
      defederate_response s = Except.ok (json_dumps r)) ∧
    ((deserialize_response st₁ "\x7b\"status\":\"ok\",\"results\":[1,2,3]\x7d"
        "application/json").2 =
      (deserialize_response st₂ "[1,2,3]" "application/json").2) := by
  refine ⟨?_, ?_, ?_, ?_, rfl⟩
  · intro h
    unfold defederate_response
    rw [h]
  · intro j hj hc
    simp [defederate_response, hj, hc]
  · intro j hj hc hr
    simp [defederate_response, hj, hc, hr]
  · intro kvs r hj hany hlook
    have hres : kvs.any (fun kv => kv.1 = "results") = true := by
      unfold jsonLookup at hlook
      cases hf : kvs.reverse.find? (fun kv => kv.1 = "results") with
      | none => rw [hf] at hlook; exact Option.noConfusion hlook
      | some kv =>
        have hmem : kv ∈ kvs := List.mem_reverse.1 (List.mem_of_find?_eq_some hf)
        have hpred := List.find?_some hf
        exact List.any_eq_true.2 ⟨kv, hmem, hpred⟩
    have hsub : pySubscript (Json.obj kvs) "results" = Except.ok r := by
      simp [pySubscript, hlook]
    simp [defederate_response, hj, pyContains, hany, hres, hsub]

/-- C3 witness: the amended statement applied at concrete payloads — a
non-JSON payload passes through, an array without the keys passes through,
an array containing `status` but not `results` passes through, and the
envelope around `[1,2,3]` is replaced by the serialized results field. -/
theorem defederate_response_amended_witness :
    defederate_response "not json" = Except.ok "not json" ∧
    defederate_response "[1,2,3]" = Except.ok "[1,2,3]" ∧
    defederate_response "[\"status\"]" = Except.ok "[\"status\"]" ∧
    defederate_response "\x7b\"status\":\"ok\",\"results\":[1,2,3]\x7d" =
      Except.ok "[1, 2, 3]" := by
  refine ⟨?_, ?_, ?_, ?_⟩
  · exact (defederate_response_amended "not json"
      (abstract_client_init "application/json")
      (abstract_client_init "application/json")).1 rfl
  · exact (defederate_response_amended "[1,2,3]"
      (abstract_client_init "application/json")
      (abstract_client_init "application/json")).2.1
      (Json.arr [Json.num 1, Json.num 2, Json.num 3]) rfl rfl
  · exact (defederate_response_amended "[\"status\"]"
      (abstract_client_init "application/json")
      (abstract_client_init "application/json")).2.2.1
      (Json.arr [Json.str "status"]) rfl rfl rfl
  · exact (defederate_response_amended
      "\x7b\"status\":\"ok\",\"results\":[1,2,3]\x7d"
      (abstract_client_init "application/json")
      (abstract_client_init "application/json")).2.2.2.1
      [("status", Json.str "ok"),
       ("results", Json.arr [Json.num 1, Json.num 2, Json.num 3])]
      (Json.arr [Json.num 1, Json.num 2, Json.num 3]) rfl rfl rfl
